import Mathlib

/-!
Verification development for the Chaloride ride-hailing client.

The definitions below are a shallow embedding of the ride-lifecycle
orchestrator (`components/BookingView.tsx`, `App.tsx`), the resilient RPC
wrapper (`services/geminiService.ts`, function `withRetry`) and the
Google Pay modal.  JavaScript strings are modelled as Lean `String`s and
the JS string primitives used by the code (`includes`, `split(' ')[0]`,
`parseInt(_, 10)`) are modelled over `List Char` so that everything is
executable by the kernel.  Timers and promise resolutions are modelled as
explicit events of a state machine; a scheduled `setTimeout` that the code
never cancels is represented by persistent pending-timer state.
-/

namespace Chaloride

/-! ## JS string primitives -/

/-- Is `pat` a prefix of `l`?  Used to model JS `String.prototype.includes`. -/
def listIsPrefix : List Char → List Char → Bool
  | [], _ => true
  | _ :: _, [] => false
  | p :: ps, c :: cs => p == c && listIsPrefix ps cs

/-- Does `pat` occur contiguously inside `l`? -/
def listContains (l pat : List Char) : Bool :=
  match l with
  | [] => listIsPrefix pat []
  | _ :: cs => listIsPrefix pat l || listContains cs pat

/-- Model of JS `s.includes(pat)`. -/
def strIncludes (s pat : String) : Bool :=
  listContains s.toList pat.toList

/-- Model of JS `s.split(' ')[0]`: the characters before the first space. -/
def jsSplitHeadChars (s : String) : List Char :=
  s.toList.takeWhile (fun c => !(c == ' '))

/-- Maximal leading run of decimal digits. -/
def leadingDigits : List Char → List Char
  | c :: cs => if c.isDigit then c :: leadingDigits cs else []
  | [] => []

/-- Numeric value of a digit list. -/
def digitsToNat (l : List Char) : Nat :=
  l.foldl (fun a c => a * 10 + (c.toNat - 48)) 0

/-- Model of JS `parseInt(s, 10)`: skip leading whitespace, optional sign,
then a maximal run of digits; `none` models `NaN` (no digits found). -/
def jsParseInt (s : String) : Option Int :=
  let t := s.toList.dropWhile (fun c => c == ' ' || c == '\t' || c == '\n' || c == '\r')
  match t with
  | '-' :: cs =>
      match leadingDigits cs with
      | [] => none
      | ds => some (-(digitsToNat ds : Int))
  | '+' :: cs =>
      match leadingDigits cs with
      | [] => none
      | ds => some (digitsToNat ds : Int)
  | cs =>
      match leadingDigits cs with
      | [] => none
      | ds => some (digitsToNat ds : Int)

/-! ## Resilient RPC client (`withRetry` in `services/geminiService.ts`) -/

/-- `MAX_RETRIES` from the source. -/
def MAX_RETRIES : Nat := 3

/-- The transient-error classifier used by `withRetry`:
`e.toString().includes('overloaded') || e.toString().includes('UNAVAILABLE')`. -/
def isTransientError (msg : String) : Bool :=
  strIncludes msg "overloaded" || strIncludes msg "UNAVAILABLE"

/-- The transient-error classifier as the specification words it:
error text containing `overloaded` or `unavailable`. -/
def specTransientError (msg : String) : Bool :=
  strIncludes msg "overloaded" || strIncludes msg "unavailable"

/-- The retry loop of `withRetry`.  The operation is modelled as an oracle
from the attempt index to that attempt's outcome.  Returns the overall
outcome together with the number of times the operation was invoked.
`fuel` is the number of loop iterations remaining and `lastError` the
`lastError` variable of the source. -/
def withRetryGo (op : Nat → Except String α) (i : Nat) :
    Nat → Option String → Except String α × Nat
  | 0, lastError =>
      (Except.error (lastError.getD "API call failed after multiple retries."), 0)
  | fuel + 1, _ =>
      match op i with
      | Except.ok a => (Except.ok a, 1)
      | Except.error e =>
          if isTransientError e then
            let r := withRetryGo op (i + 1) fuel (some e)
            (r.1, r.2 + 1)
          else
            (Except.error e, 1)

/-- Model of `withRetry`: run the loop with `MAX_RETRIES` iterations. -/
def withRetry (op : Nat → Except String α) : Except String α × Nat :=
  withRetryGo op 0 MAX_RETRIES none

/-! ## Passenger clamp (`useEffect` at BookingView lines 98-103) -/

inductive VehicleType
  | BIKE
  | AUTO
  | CAR
deriving DecidableEq, Repr

/-- `vehicle === 'BIKE' ? 1 : vehicle === 'AUTO' ? 4 : 4`. -/
def maxPassengers : VehicleType → Nat
  | VehicleType.BIKE => 1
  | VehicleType.AUTO => 4
  | VehicleType.CAR => 4

/-- The clamp effect: `if (passengerCount > maxPassengers) setPassengerCount(maxPassengers)`. -/
def clampPassengers (v : VehicleType) (passengerCount : Nat) : Nat :=
  if passengerCount > maxPassengers v then maxPassengers v else passengerCount

/-! ## ETA countdown (the `etaInterval` updater, BookingView lines 154-165) -/

/-- One tick of the ETA countdown: the updater passed to `setDynamicEta`.
Returns the new value together with whether the "2 minutes away" toast
fired on this tick (`newEta === 2`). -/
def etaTickStep : Option Int → Option Int × Bool
  | some p => if p > 0 then (some (p - 1), p - 1 = 2) else (some 0, false)
  | none => (some 0, false)

/-- `n` consecutive ETA ticks: final value and total number of toasts fired. -/
def etaRun (v : Option Int) : Nat → Option Int × Nat
  | 0 => (v, 0)
  | n + 1 =>
      let s := etaTickStep v
      let r := etaRun s.1 n
      (r.1, (if s.2 then 1 else 0) + r.2)

/-- How the CONFIRMED view renders the ETA:
`dynamicEta !== null ? dynamicEta + ' min' : rideDetails.eta`. -/
def displayedEta (dynamicEta : Option Int) (etaText : String) : String :=
  match dynamicEta with
  | some n => toString n ++ " min"
  | none => etaText

/-! ## Data model (`types.ts`) -/

/-- `RideStatus` from `types.ts` (all six declared values). -/
inductive RideStatus
  | IDLE
  | SEARCHING
  | CONFIRMED
  | PAID
  | COMPLETED
  | ERROR
deriving DecidableEq, Repr

/-- The payment-method `type` field. -/
inductive PMType
  | CASH
  | CARD
  | GOOGLE_PAY
  | PHONE_PE
deriving DecidableEq, Repr

structure PaymentMethod where
  id : String
  pmType : PMType
  brand : Option String := none
  last4 : Option String := none
deriving DecidableEq, Repr

structure RideDetails where
  driverName : String
  driverPhotoUrl : String
  driverBio : String
  vehicleModel : String
  licensePlate : String
  eta : String
  fare : String
deriving DecidableEq, Repr

/-- `CompletedRide extends RideDetails`. -/
structure CompletedRide extends RideDetails where
  id : String
  pickup : String
  destination : String
  date : String
  rating : Option Nat := none
deriving DecidableEq, Repr

structure FareEstimate where
  estimatedFare : String
deriving DecidableEq, Repr

/-- The `cancellationStep` field: `'idle' | 'confirm' | 'reason'`. -/
inductive CancellationStep
  | idle
  | confirm
  | reason
deriving DecidableEq, Repr

/-- `CANCELLATION_REASONS` from BookingView. -/
def CANCELLATION_REASONS : List String :=
  ["Driver is too far",
   "Changed my mind",
   "Booked by mistake",
   "Longer wait time than expected",
   "Found another ride"]

/-! ## Orchestrator state

The combined mutable state of `BookingView` and the booking-form state that
`App` owns and passes down as props.  `pendingPayments` records the delays
of `setTimeout`s scheduled by `handlePayment` that have not yet fired (the
code keeps no handle to them, so nothing can cancel them);
`gpayProcessing` records a pending 2500 ms Google-Pay timeout;
`searchesInFlight` counts awaited `generateRideDetails` calls (each
resolution is applied unconditionally by the code, whatever the current
status). -/

structure OrchState where
  rideStatus : RideStatus
  rideDetails : Option RideDetails
  error : Option String
  payingMethodId : Option String
  cancellationStep : CancellationStep
  cancellationReason : String
  fareEstimate : Option FareEstimate
  dynamicEta : Option Int
  driverPosition : String × String
  rideTrackingLink : Option String
  isShareModalOpen : Bool
  isGPayModalOpen : Bool
  isShowingHistory : Bool
  selectedRide : Option CompletedRide
  pickup : String
  destination : String
  vehicle : VehicleType
  passengerCount : Nat
  searchesInFlight : Nat
  pendingPayments : List Nat
  gpayProcessing : Bool
deriving DecidableEq, Repr

/-- Initial state: the `useState` initialisers of `App` and `BookingView`. -/
def initState : OrchState where
  rideStatus := RideStatus.IDLE
  rideDetails := none
  error := none
  payingMethodId := none
  cancellationStep := CancellationStep.idle
  cancellationReason := ""
  fareEstimate := none
  dynamicEta := none
  driverPosition := ("40%", "60%")
  rideTrackingLink := none
  isShareModalOpen := false
  isGPayModalOpen := false
  isShowingHistory := false
  selectedRide := none
  pickup := ""
  destination := ""
  vehicle := VehicleType.CAR
  passengerCount := 1
  searchesInFlight := 0
  pendingPayments := []
  gpayProcessing := false

/-- Observable outputs of a transition: toasts, the `onRideComplete`
emission to the history collaborator, and the admin console log. -/
inductive Out
  | toast (msg : String)
  | rideComplete (pickup destination : String) (d : RideDetails)
  | adminLog (pickup destination : String)
deriving DecidableEq, Repr

/-! ## Handlers (BookingView) -/

/-- `completeRideAction` (lines 226-238): emit the completed ride to the
history collaborator only when `rideDetails` is non-null, then clear the
paying indicator, set status PAID, clear the dynamic ETA and close the
Google-Pay modal. -/
def completeRideAction (s : OrchState) : OrchState × List Out :=
  ({ s with
      payingMethodId := none
      rideStatus := RideStatus.PAID
      dynamicEta := none
      isGPayModalOpen := false },
   match s.rideDetails with
   | some d => [Out.rideComplete s.pickup s.destination d]
   | none => [])

/-- `handleNewRide` (lines 265-279). -/
def handleNewRide (s : OrchState) : OrchState :=
  { s with
      rideStatus := RideStatus.IDLE
      rideDetails := none
      pickup := ""
      destination := ""
      fareEstimate := none
      error := none
      dynamicEta := none
      selectedRide := none
      isShowingHistory := false
      cancellationStep := CancellationStep.idle
      cancellationReason := ""
      rideTrackingLink := none
      isShareModalOpen := false }

/-- `handleCancelRide` (lines 281-289): at the reason step with no reason
selected, only remind the user; otherwise toast and reset via
`handleNewRide`. -/
def handleCancelRide (s : OrchState) : OrchState × List Out :=
  if s.cancellationStep = CancellationStep.reason ∧ s.cancellationReason = "" then
    (s, [Out.toast "Please select a reason."])
  else
    (handleNewRide s, [Out.toast "Your ride has been cancelled."])

/-- `handlePayment` (lines 240-253): record the paying method; Google Pay
opens the modal, every other method schedules a `setTimeout` whose delay is
500 ms for CASH and 2000 ms otherwise. -/
def handlePayment (m : PaymentMethod) (s : OrchState) : OrchState :=
  let base := { s with payingMethodId := some m.id }
  if m.pmType = PMType.GOOGLE_PAY then
    { base with isGPayModalOpen := true }
  else
    { base with
        pendingPayments :=
          base.pendingPayments ++ [if m.pmType = PMType.CASH then 500 else 2000] }

/-- `handleGPayCancel` (lines 260-263). -/
def handleGPayCancel (s : OrchState) : OrchState :=
  { s with isGPayModalOpen := false, payingMethodId := none }

/-- The synchronous part of `handleFindRide` (lines 199-205): validation,
then status SEARCHING and a `generateRideDetails` call put in flight. -/
def handleFindRideSync (s : OrchState) : OrchState :=
  if s.pickup = "" ∨ s.destination = "" then
    { s with error := some "Please enter both pickup and destination." }
  else
    { s with
        error := none
        rideStatus := RideStatus.SEARCHING
        searchesInFlight := s.searchesInFlight + 1 }

/-- Resolution of a successful `generateRideDetails` call
(lines 207-217) followed by the tracking effect's ETA initialisation
(lines 134-139): details set, status CONFIRMED, fresh tracking link,
admin log; `dynamicEta` is set only when the leading integer of the ETA
text parses. -/
def applySearchSuccess (d : RideDetails) (linkId : String) (s : OrchState) :
    OrchState × List Out :=
  ({ s with
      rideDetails := some d
      rideStatus := RideStatus.CONFIRMED
      rideTrackingLink := some ("/track?rideId=" ++ linkId)
      searchesInFlight := s.searchesInFlight - 1
      dynamicEta :=
        match jsParseInt (String.mk (jsSplitHeadChars d.eta)) with
        | some n => some n
        | none => s.dynamicEta },
   [Out.adminLog s.pickup s.destination])

/-- Resolution of a failed `generateRideDetails` call (lines 219-223). -/
def applySearchFailure (s : OrchState) : OrchState :=
  { s with
      error := some "Could not find a ride. Please try again later."
      rideStatus := RideStatus.ERROR
      searchesInFlight := s.searchesInFlight - 1 }

/-! ## Events and the step function -/

/-- Events: user interactions that the rendered UI makes available, plus
the asynchronous completions (promise resolutions and timer firings). -/
inductive Event
  | setPickup (s : String)
  | setDestination (s : String)
  | setVehicle (v : VehicleType)
  | findRide
  | searchSuccess (d : RideDetails) (linkId : String)
  | searchFailure
  | etaTick
  | drift (p : String × String)
  | selectPayment (m : PaymentMethod)
  | paymentTimerFire
  | gpayConfirm
  | gpayTimerFire
  | gpayCancel
  | cancelRequest
  | cancelKeep
  | cancelYes
  | selectReason (r : String)
  | cancelCommit
  | newRide
deriving DecidableEq, Repr

/-- The Google-Pay modal (`fixed inset-0 z-50`) covers the whole screen
while it is rendered (`isGPayModalOpen && rideDetails`). -/
def modalBlocked (s : OrchState) : Bool :=
  s.isGPayModalOpen && s.rideDetails.isSome

/-- One transition of the orchestrator.  `none` means the event is not
enabled in this state (its UI affordance is absent, disabled or covered,
or no such asynchronous activity is pending). -/
def step (e : Event) (s : OrchState) : Option (OrchState × List Out) :=
  match e with
  | Event.setPickup v =>
      if s.rideStatus = RideStatus.IDLE ∧ modalBlocked s = false ∧
          s.cancellationStep = CancellationStep.idle then
        some ({ s with pickup := v }, [])
      else none
  | Event.setDestination v =>
      if s.rideStatus = RideStatus.IDLE ∧ modalBlocked s = false ∧
          s.cancellationStep = CancellationStep.idle then
        some ({ s with destination := v }, [])
      else none
  | Event.setVehicle v =>
      if s.rideStatus = RideStatus.IDLE ∧ modalBlocked s = false ∧
          s.cancellationStep = CancellationStep.idle then
        some ({ s with vehicle := v, passengerCount := clampPassengers v s.passengerCount }, [])
      else none
  | Event.findRide =>
      if s.rideStatus = RideStatus.IDLE ∧ modalBlocked s = false ∧
          s.cancellationStep = CancellationStep.idle ∧
          ¬s.pickup = "" ∧ ¬s.destination = "" then
        some (handleFindRideSync s, [])
      else none
  | Event.searchSuccess d linkId =>
      if 0 < s.searchesInFlight then some (applySearchSuccess d linkId s) else none
  | Event.searchFailure =>
      if 0 < s.searchesInFlight then some (applySearchFailure s, []) else none
  | Event.etaTick =>
      if s.rideStatus = RideStatus.CONFIRMED ∧ s.rideDetails.isSome = true then
        some ({ s with dynamicEta := (etaTickStep s.dynamicEta).1 },
              if (etaTickStep s.dynamicEta).2 then
                [Out.toast "Your driver is 2 minutes away!"]
              else [])
      else none
  | Event.drift p =>
      if s.rideStatus = RideStatus.CONFIRMED ∧ s.rideDetails.isSome = true then
        some ({ s with driverPosition := p }, [])
      else none
  | Event.selectPayment m =>
      if s.rideStatus = RideStatus.CONFIRMED ∧ s.rideDetails.isSome = true ∧
          modalBlocked s = false ∧ s.cancellationStep = CancellationStep.idle ∧
          ¬s.payingMethodId = some m.id then
        some (handlePayment m s, [])
      else none
  | Event.paymentTimerFire =>
      match s.pendingPayments with
      | [] => none
      | _ :: rest => some (completeRideAction { s with pendingPayments := rest })
  | Event.gpayConfirm =>
      if s.isGPayModalOpen = true ∧ s.rideDetails.isSome = true ∧
          s.gpayProcessing = false then
        some ({ s with gpayProcessing := true }, [])
      else none
  | Event.gpayTimerFire =>
      if s.gpayProcessing = true then
        let r := completeRideAction { s with gpayProcessing := false }
        some (r.1, Out.toast "Payment successful!" :: r.2)
      else none
  | Event.gpayCancel =>
      if s.isGPayModalOpen = true ∧ s.rideDetails.isSome = true ∧
          s.gpayProcessing = false then
        some (handleGPayCancel s, [])
      else none
  | Event.cancelRequest =>
      if s.rideStatus = RideStatus.CONFIRMED ∧ s.rideDetails.isSome = true ∧
          modalBlocked s = false ∧ s.cancellationStep = CancellationStep.idle then
        some ({ s with cancellationStep := CancellationStep.confirm }, [])
      else none
  | Event.cancelKeep =>
      if s.cancellationStep = CancellationStep.confirm ∧ modalBlocked s = false then
        some ({ s with cancellationStep := CancellationStep.idle }, [])
      else none
  | Event.cancelYes =>
      if s.cancellationStep = CancellationStep.confirm ∧ modalBlocked s = false then
        some ({ s with cancellationStep := CancellationStep.reason }, [])
      else none
  | Event.selectReason r =>
      if s.cancellationStep = CancellationStep.reason ∧ modalBlocked s = false ∧
          r ∈ CANCELLATION_REASONS then
        some ({ s with cancellationReason := r }, [])
      else none
  | Event.cancelCommit =>
      if s.cancellationStep = CancellationStep.reason ∧ modalBlocked s = false ∧
          ¬s.cancellationReason = "" then
        some (handleCancelRide s)
      else none
  | Event.newRide =>
      if (s.rideStatus = RideStatus.PAID ∨ s.rideStatus = RideStatus.ERROR) ∧
          modalBlocked s = false ∧ s.cancellationStep = CancellationStep.idle then
        some (handleNewRide s, [])
      else none

/-- Reachability from the initial state through enabled transitions. -/
inductive Reachable : OrchState → Prop
  | init : Reachable initState
  | next {s s' : OrchState} {e : Event} {out : List Out} :
      Reachable s → step e s = some (s', out) → Reachable s'

/-- The simulated Google-Pay processing delay (`GooglePayModal`). -/
def GPAY_PROCESSING_DELAY_MS : Nat := 2500

/-! ## Fare-estimator debounce (BookingView lines 105-128)

Every change to `(pickup, destination, vehicle, passengerCount)` re-runs the
effect: the cleanup clears the previously scheduled 500 ms timeout and a new
one is scheduled.  So a trigger's timeout fires iff no later trigger arrives
within the debounce window.  A fired timeout issues an outbound
`estimateFare` call only when both location texts are longer than 2
characters. -/

/-- The inputs captured by one debounce trigger. -/
structure EstInputs where
  pickup : String
  destination : String
  vehicle : VehicleType
  passengerCount : Nat
deriving DecidableEq, Repr

/-- The debounce window of the fare estimator. -/
def DEBOUNCE_MS : Nat := 500

/-- Given the chronological list of triggers (time, inputs), the triggers
whose 500 ms timeout actually fires: each trigger's timeout is cleared by
the next trigger if that one arrives within the window; the last trigger's
timeout always fires eventually. -/
def debounceFires : List (Nat × EstInputs) → List (Nat × EstInputs)
  | [] => []
  | [a] => [a]
  | a :: b :: rest =>
      (if b.1 < a.1 + DEBOUNCE_MS then [] else [a]) ++ debounceFires (b :: rest)

/-- Does a fired timeout issue an outbound `estimateFare` call
(`p.length > 2 && d.length > 2`)? -/
def wantsCall (i : EstInputs) : Bool :=
  decide (2 < i.pickup.length) && decide (2 < i.destination.length)

/-- The outbound estimate calls a trigger list gives rise to. -/
def outboundCalls (l : List (Nat × EstInputs)) : List (Nat × EstInputs) :=
  (debounceFires l).filter (fun a => wantsCall a.2)

/-! ## Concrete executions

A helper to run one enabled step, and two concrete traces used below:
a ride that is paid by card and cancelled while the 2000 ms payment
timeout is pending, and a ride whose offer carries an unparseable ETA
text. -/

/-- The state after an enabled step (the input state if disabled). -/
def stepD (e : Event) (s : OrchState) : OrchState :=
  ((step e s).getD (s, [])).1

/-- A concrete ride offer with a parseable ETA text. -/
def d0 : RideDetails where
  driverName := "Ravi Kumar"
  driverPhotoUrl := "https://picsum.photos/seed/ravi/200/200"
  driverBio := "5-star driver with 4 years of experience."
  vehicleModel := "Maruti Suzuki Swift"
  licensePlate := "KA 38 AB 1234"
  eta := "8 min"
  fare := "150"

/-- The card payment method that `App` supplies. -/
def mCard : PaymentMethod where
  id := "1"
  pmType := PMType.CARD
  brand := some "Visa"
  last4 := some "4242"

def st1 : OrchState := stepD (Event.setPickup "MG Road") initState
def st2 : OrchState := stepD (Event.setDestination "Bus Stand") st1
def st3 : OrchState := stepD Event.findRide st2
def st4 : OrchState := stepD (Event.searchSuccess d0 "ride1") st3
def st5 : OrchState := stepD (Event.selectPayment mCard) st4
def st6 : OrchState := stepD Event.cancelRequest st5
def st7 : OrchState := stepD Event.cancelYes st6
def st8 : OrchState := stepD (Event.selectReason "Changed my mind") st7
def st9 : OrchState := stepD Event.cancelCommit st8
def st10 : OrchState := stepD Event.paymentTimerFire st9

/-- Branch of the trace where the card timeout fires while still CONFIRMED. -/
def stPaid : OrchState := stepD Event.paymentTimerFire st5

/-- A concrete ride offer whose ETA text has no leading integer. -/
def d9 : RideDetails where
  driverName := "Anil"
  driverPhotoUrl := "https://picsum.photos/seed/anil/200/200"
  driverBio := "Friendly driver."
  vehicleModel := "Bajaj RE"
  licensePlate := "KA 38 CD 5678"
  eta := "soon"
  fare := "60"

def su1 : OrchState := stepD (Event.setPickup "Fort") initState
def su2 : OrchState := stepD (Event.setDestination "Statue") su1
def su3 : OrchState := stepD Event.findRide su2
def su4 : OrchState := stepD (Event.searchSuccess d9 "ride2") su3
def su5 : OrchState := stepD Event.etaTick su4


/-! # Helper lemmas shared by several claims -/

theorem reach_st1 : Reachable st1 := by
  have h : step (Event.setPickup "MG Road") initState = some (st1, []) := by decide
  exact Reachable.next Reachable.init h

theorem reach_st2 : Reachable st2 := by
  have h : step (Event.setDestination "Bus Stand") st1 = some (st2, []) := by decide
  exact Reachable.next reach_st1 h

theorem reach_st3 : Reachable st3 := by
  have h : step Event.findRide st2 = some (st3, []) := by decide
  exact Reachable.next reach_st2 h

theorem reach_st4 : Reachable st4 := by
  have h : step (Event.searchSuccess d0 "ride1") st3 =
      some (st4, [Out.adminLog "MG Road" "Bus Stand"]) := by decide
  exact Reachable.next reach_st3 h

theorem reach_st5 : Reachable st5 := by
  have h : step (Event.selectPayment mCard) st4 = some (st5, []) := by decide
  exact Reachable.next reach_st4 h

theorem reach_st6 : Reachable st6 := by
  have h : step Event.cancelRequest st5 = some (st6, []) := by decide
  exact Reachable.next reach_st5 h

theorem reach_st7 : Reachable st7 := by
  have h : step Event.cancelYes st6 = some (st7, []) := by decide
  exact Reachable.next reach_st6 h

theorem reach_st8 : Reachable st8 := by
  have h : step (Event.selectReason "Changed my mind") st7 = some (st8, []) := by decide
  exact Reachable.next reach_st7 h

theorem reach_st9 : Reachable st9 := by
  have h : step Event.cancelCommit st8 =
      some (st9, [Out.toast "Your ride has been cancelled."]) := by decide
  exact Reachable.next reach_st8 h

theorem reach_st10 : Reachable st10 := by
  have h : step Event.paymentTimerFire st9 = some (st10, []) := by decide
  exact Reachable.next reach_st9 h

theorem reach_su4 : Reachable su4 := by
  have h1 : step (Event.setPickup "Fort") initState = some (su1, []) := by decide
  have h2 : step (Event.setDestination "Statue") su1 = some (su2, []) := by decide
  have h3 : step Event.findRide su2 = some (su3, []) := by decide
  have h4 : step (Event.searchSuccess d9 "ride2") su3 =
      some (su4, [Out.adminLog "Fort" "Statue"]) := by decide
  exact Reachable.next (Reachable.next (Reachable.next (Reachable.next Reachable.init h1) h2) h3) h4

/-- Closed form for an ETA countdown run that starts from a parsed,
non-negative value: after `k` ticks the value is `max (e0 - k) 0` and the
"2 minutes away" toast has fired exactly once iff the countdown passed
from 3 to 2 within those ticks. -/
theorem etaRun_closed (k : Nat) : ∀ e0 : Int, 0 ≤ e0 →
    (etaRun (some e0) k).1 = some (max (e0 - k) 0) ∧
    (etaRun (some e0) k).2 = if 3 ≤ e0 ∧ e0 ≤ (k : Int) + 2 then 1 else 0 := by
  induction k with
  | zero =>
      intro e0 h
      constructor
      · simp [etaRun]
        omega
      · simp only [etaRun, Nat.cast_zero]
        rw [if_neg]
        rintro ⟨h1, h2⟩
        omega
  | succ k ih =>
      intro e0 h
      by_cases hp : e0 > 0
      · have h1 : 0 ≤ e0 - 1 := by omega
        obtain ⟨iv, ic⟩ := ih (e0 - 1) h1
        constructor
        · simp only [etaRun, etaTickStep, if_pos hp]
          rw [iv]
          congr 1
          omega
        · simp only [etaRun, etaTickStep, if_pos hp]
          rw [ic]
          by_cases h3 : e0 = 3
          · rw [if_pos (by simpa using by omega : decide (e0 - 1 = 2) = true)]
            rw [if_neg (by omega), if_pos (by constructor <;> omega)]
          · rw [if_neg (by simp only [decide_eq_true_eq]; omega :
                ¬ decide (e0 - 1 = 2) = true)]
            by_cases h4 : 3 ≤ e0 - 1 ∧ e0 - 1 ≤ (k : Int) + 2
            · rw [if_pos h4, if_pos (by push_cast; constructor <;> omega)]
            · rw [if_neg h4, if_neg (by push_cast; rintro ⟨ha, hb⟩; omega)]
      · have h0 : e0 = 0 := by omega
        subst h0
        obtain ⟨iv, ic⟩ := ih 0 le_rfl
        constructor
        · simp only [etaRun, etaTickStep]
          norm_num
          rw [iv]
          congr 1
          omega
        · simp only [etaRun, etaTickStep]
          norm_num
          rw [ic]
          norm_num

/-- Per-step analysis used by claim C2: how each orchestrator transition
can change the status and the pending asynchronous activities. -/
theorem c2_step_all (e : Event) (s s' : OrchState) (out : List Out)
    (h : step e s = some (s', out)) :
    ((s'.rideStatus = RideStatus.CONFIRMED ∧ s.rideStatus ≠ RideStatus.CONFIRMED) →
      (∃ d l, e = Event.searchSuccess d l) ∧ 0 < s.searchesInFlight) ∧
    ((s'.rideStatus = RideStatus.PAID ∧ s.rideStatus ≠ RideStatus.PAID) →
      (e = Event.paymentTimerFire ∧ s.pendingPayments ≠ []) ∨
      (e = Event.gpayTimerFire ∧ s.gpayProcessing = true)) ∧
    (s.searchesInFlight < s'.searchesInFlight →
      e = Event.findRide ∧ s.rideStatus = RideStatus.IDLE ∧
      s'.rideStatus = RideStatus.SEARCHING) ∧
    (s.pendingPayments.length < s'.pendingPayments.length →
      (∃ m, e = Event.selectPayment m) ∧ s.rideStatus = RideStatus.CONFIRMED) ∧
    ((s'.gpayProcessing = true ∧ s.gpayProcessing = false) →
      e = Event.gpayConfirm ∧ s.isGPayModalOpen = true ∧ s.rideDetails.isSome = true) ∧
    ((s'.isGPayModalOpen = true ∧ s.isGPayModalOpen = false) →
      (∃ m, e = Event.selectPayment m ∧ m.pmType = PMType.GOOGLE_PAY) ∧
      s.rideStatus = RideStatus.CONFIRMED) ∧
    (s.rideStatus ≠ RideStatus.COMPLETED → s'.rideStatus ≠ RideStatus.COMPLETED) := by
  cases e with
  | setPickup v =>
      simp only [step] at h
      split at h
      · simp only [Option.some.injEq, Prod.mk.injEq] at h
        obtain ⟨h1, h2⟩ := h
        subst h1
        refine ⟨?_, ?_, ?_, ?_, ?_, ?_, ?_⟩ <;> (dsimp only; intro hc) <;>
          first | assumption | simp_all | omega
      · exact absurd h (by simp)
  | setDestination v =>
      simp only [step] at h
      split at h
      · simp only [Option.some.injEq, Prod.mk.injEq] at h
        obtain ⟨h1, h2⟩ := h
        subst h1
        refine ⟨?_, ?_, ?_, ?_, ?_, ?_, ?_⟩ <;> (dsimp only; intro hc) <;>
          first | assumption | simp_all | omega
      · exact absurd h (by simp)
  | setVehicle v =>
      simp only [step] at h
      split at h
      · simp only [Option.some.injEq, Prod.mk.injEq] at h
        obtain ⟨h1, h2⟩ := h
        subst h1
        refine ⟨?_, ?_, ?_, ?_, ?_, ?_, ?_⟩ <;> (dsimp only; intro hc) <;>
          first | assumption | simp_all | omega
      · exact absurd h (by simp)
  | findRide =>
      simp only [step] at h
      split at h
      · rename_i hg
        simp only [Option.some.injEq, Prod.mk.injEq] at h
        obtain ⟨h1, h2⟩ := h
        subst h1
        have hs' : handleFindRideSync s =
            { s with
                error := none
                rideStatus := RideStatus.SEARCHING
                searchesInFlight := s.searchesInFlight + 1 } := by
          unfold handleFindRideSync
          rw [if_neg]
          push_neg
          exact ⟨hg.2.2.2.1, hg.2.2.2.2⟩
        rw [hs']
        refine ⟨?_, ?_, ?_, ?_, ?_, ?_, ?_⟩ <;> (dsimp only; intro hc)
        · simp_all
        · simp_all
        · exact ⟨rfl, hg.1, rfl⟩
        · simp_all
        · simp_all
        · simp_all
        · simp
      · exact absurd h (by simp)
  | searchSuccess d linkId =>
      simp only [step] at h
      split at h
      · rename_i hg
        simp only [applySearchSuccess, Option.some.injEq, Prod.mk.injEq] at h
        obtain ⟨h1, h2⟩ := h
        subst h1
        refine ⟨?_, ?_, ?_, ?_, ?_, ?_, ?_⟩ <;> (dsimp only; intro hc)
        · exact ⟨⟨d, linkId, rfl⟩, hg⟩
        · simp_all
        · omega
        · simp_all
        · simp_all
        · simp_all
        · simp
      · exact absurd h (by simp)
  | searchFailure =>
      simp only [step] at h
      split at h
      · simp only [applySearchFailure, Option.some.injEq, Prod.mk.injEq] at h
        obtain ⟨h1, h2⟩ := h
        subst h1
        refine ⟨?_, ?_, ?_, ?_, ?_, ?_, ?_⟩ <;> (dsimp only; intro hc) <;>
          first | omega | simp_all | simp
      · exact absurd h (by simp)
  | etaTick =>
      simp only [step] at h
      split at h
      · simp only [Option.some.injEq, Prod.mk.injEq] at h
        obtain ⟨h1, h2⟩ := h
        subst h1
        refine ⟨?_, ?_, ?_, ?_, ?_, ?_, ?_⟩ <;> (dsimp only; intro hc) <;>
          first | assumption | simp_all | omega
      · exact absurd h (by simp)
  | drift p =>
      simp only [step] at h
      split at h
      · simp only [Option.some.injEq, Prod.mk.injEq] at h
        obtain ⟨h1, h2⟩ := h
        subst h1
        refine ⟨?_, ?_, ?_, ?_, ?_, ?_, ?_⟩ <;> (dsimp only; intro hc) <;>
          first | assumption | simp_all | omega
      · exact absurd h (by simp)
  | selectPayment m =>
      simp only [step] at h
      split at h
      · rename_i hg
        simp only [Option.some.injEq, Prod.mk.injEq] at h
        obtain ⟨h1, h2⟩ := h
        subst h1
        by_cases hm : m.pmType = PMType.GOOGLE_PAY
        · have hs' : handlePayment m s =
              { s with payingMethodId := some m.id, isGPayModalOpen := true } := by
            unfold handlePayment
            rw [if_pos hm]
          rw [hs']
          refine ⟨?_, ?_, ?_, ?_, ?_, ?_, ?_⟩ <;> (dsimp only; intro hc)
          · simp_all
          · simp_all
          · simp_all
          · simp_all
          · simp_all
          · exact ⟨⟨m, rfl, hm⟩, hg.1⟩
          · exact hc
        · have hs' : handlePayment m s =
              { s with
                  payingMethodId := some m.id
                  pendingPayments := s.pendingPayments ++
                    [if m.pmType = PMType.CASH then 500 else 2000] } := by
            unfold handlePayment
            rw [if_neg hm]
          rw [hs']
          refine ⟨?_, ?_, ?_, ?_, ?_, ?_, ?_⟩ <;> (dsimp only; intro hc)
          · simp_all
          · simp_all
          · simp_all
          · exact ⟨⟨m, rfl⟩, hg.1⟩
          · simp_all
          · simp_all
          · exact hc
      · exact absurd h (by simp)
  | paymentTimerFire =>
      simp only [step] at h
      rcases hp : s.pendingPayments with _ | ⟨hd, rest⟩
      · rw [hp] at h
        exact absurd h (by simp)
      · rw [hp] at h
        simp only [completeRideAction, Option.some.injEq, Prod.mk.injEq] at h
        obtain ⟨h1, h2⟩ := h
        subst h1
        refine ⟨?_, ?_, ?_, ?_, ?_, ?_, ?_⟩ <;> (dsimp only; intro hc)
        · simp_all
        · exact Or.inl ⟨rfl, by simp [hp]⟩
        · simp_all
        · simp only [List.length_cons] at hc; omega
        · simp_all
        · simp_all
        · simp
  | gpayConfirm =>
      simp only [step] at h
      split at h
      · rename_i hg
        simp only [Option.some.injEq, Prod.mk.injEq] at h
        obtain ⟨h1, h2⟩ := h
        subst h1
        refine ⟨?_, ?_, ?_, ?_, ?_, ?_, ?_⟩ <;> (dsimp only; intro hc)
        · simp_all
        · simp_all
        · simp_all
        · simp_all
        · exact ⟨rfl, hg.2.1.symm ▸ hg.1, hg.2.1⟩
        · simp_all
        · exact hc
      · exact absurd h (by simp)
  | gpayTimerFire =>
      simp only [step] at h
      split at h
      · rename_i hg
        simp only [completeRideAction, Option.some.injEq, Prod.mk.injEq] at h
        obtain ⟨h1, h2⟩ := h
        subst h1
        refine ⟨?_, ?_, ?_, ?_, ?_, ?_, ?_⟩ <;> (dsimp only; intro hc)
        · simp_all
        · exact Or.inr ⟨rfl, hg⟩
        · simp_all
        · simp_all
        · simp_all
        · simp_all
        · simp
      · exact absurd h (by simp)
  | gpayCancel =>
      simp only [step] at h
      split at h
      · simp only [handleGPayCancel, Option.some.injEq, Prod.mk.injEq] at h
        obtain ⟨h1, h2⟩ := h
        subst h1
        refine ⟨?_, ?_, ?_, ?_, ?_, ?_, ?_⟩ <;> (dsimp only; intro hc) <;>
          first | assumption | simp_all | omega
      · exact absurd h (by simp)
  | cancelRequest =>
      simp only [step] at h
      split at h
      · simp only [Option.some.injEq, Prod.mk.injEq] at h
        obtain ⟨h1, h2⟩ := h
        subst h1
        refine ⟨?_, ?_, ?_, ?_, ?_, ?_, ?_⟩ <;> (dsimp only; intro hc) <;>
          first | assumption | simp_all | omega
      · exact absurd h (by simp)
  | cancelKeep =>
      simp only [step] at h
      split at h
      · simp only [Option.some.injEq, Prod.mk.injEq] at h
        obtain ⟨h1, h2⟩ := h
        subst h1
        refine ⟨?_, ?_, ?_, ?_, ?_, ?_, ?_⟩ <;> (dsimp only; intro hc) <;>
          first | assumption | simp_all | omega
      · exact absurd h (by simp)
  | cancelYes =>
      simp only [step] at h
      split at h
      · simp only [Option.some.injEq, Prod.mk.injEq] at h
        obtain ⟨h1, h2⟩ := h
        subst h1
        refine ⟨?_, ?_, ?_, ?_, ?_, ?_, ?_⟩ <;> (dsimp only; intro hc) <;>
          first | assumption | simp_all | omega
      · exact absurd h (by simp)
  | selectReason r =>
      simp only [step] at h
      split at h
      · simp only [Option.some.injEq, Prod.mk.injEq] at h
        obtain ⟨h1, h2⟩ := h
        subst h1
        refine ⟨?_, ?_, ?_, ?_, ?_, ?_, ?_⟩ <;> (dsimp only; intro hc) <;>
          first | assumption | simp_all | omega
      · exact absurd h (by simp)
  | cancelCommit =>
      simp only [step] at h
      split at h
      · rename_i hg
        have hcr : ¬(s.cancellationStep = CancellationStep.reason ∧
            s.cancellationReason = "") := by
          intro hcc
          exact hg.2.2 hcc.2
        simp only [handleCancelRide, if_neg hcr, Option.some.injEq, Prod.mk.injEq] at h
        obtain ⟨h1, h2⟩ := h
        subst h1
        refine ⟨?_, ?_, ?_, ?_, ?_, ?_, ?_⟩ <;>
          (simp only [handleNewRide]; intro hc) <;>
          first | simp_all | omega | simp
      · exact absurd h (by simp)
  | newRide =>
      simp only [step] at h
      split at h
      · simp only [Option.some.injEq, Prod.mk.injEq] at h
        obtain ⟨h1, h2⟩ := h
        subst h1
        refine ⟨?_, ?_, ?_, ?_, ?_, ?_, ?_⟩ <;>
          (simp only [handleNewRide]; intro hc) <;>
          first | simp_all | omega | simp
      · exact absurd h (by simp)

/-! # Claim theorems -/

/-- C1 (corrected): the retry wrapper returns a third-attempt success after two
transient failures with exactly 3 invocations, propagates a non-transient
failure after exactly 1 invocation, and surfaces the last observed error when
all 3 attempts fail transiently — where, as in the code, a transient signal is
error text containing `overloaded` or the upper-case `UNAVAILABLE`. -/
theorem c1_retry_policy {α : Type} (op : Nat → Except String α) :
    (∀ e0 e1 a, op 0 = Except.error e0 → isTransientError e0 = true →
      op 1 = Except.error e1 → isTransientError e1 = true →
      op 2 = Except.ok a →
      withRetry op = (Except.ok a, 3)) ∧
    (∀ e, op 0 = Except.error e → isTransientError e = false →
      withRetry op = (Except.error e, 1)) ∧
    (∀ e0 e1 e2, op 0 = Except.error e0 → isTransientError e0 = true →
      op 1 = Except.error e1 → isTransientError e1 = true →
      op 2 = Except.error e2 → isTransientError e2 = true →
      withRetry op = (Except.error e2, 3)) := by
  refine ⟨?_, ?_, ?_⟩
  · intro e0 e1 a h0 t0 h1 t1 h2
    simp [withRetry, MAX_RETRIES, withRetryGo, h0, t0, h1, t1, h2]
  · intro e h0 t0
    simp [withRetry, MAX_RETRIES, withRetryGo, h0, t0]
  · intro e0 e1 e2 h0 t0 h1 t1 h2 t2
    simp [withRetry, MAX_RETRIES, withRetryGo, h0, t0, h1, t1, h2, t2]

/-- An operation that fails twice with the lower-case message `unavailable`
and would succeed on the third attempt. -/
def opLowerUnavailable : Nat → Except String Nat :=
  fun i => if i < 2 then Except.error "unavailable" else Except.ok 7

/-- C1 counterexample: the claim classifies the error text `unavailable` as
transient, but the code checks the case-sensitive `UNAVAILABLE`, so this
operation is invoked once and its failure propagated rather than being
retried to the third-attempt success with 3 invocations. -/
theorem c1_counterexample :
    specTransientError "unavailable" = true ∧
    isTransientError "unavailable" = false ∧
    withRetry opLowerUnavailable = (Except.error "unavailable", 1) ∧
    withRetry opLowerUnavailable ≠ (Except.ok 7, 3) := by
  refine ⟨by decide, by decide, rfl, ?_⟩
  intro h
  have h2 : (Except.error "unavailable" : Except String Nat) = Except.ok 7 :=
    congrArg Prod.fst
      ((rfl : withRetry opLowerUnavailable = (Except.error "unavailable", 1)).symm.trans h)
  exact Except.noConfusion h2

def opOverloadedTwice : Nat → Except String Nat :=
  fun i => if i < 2 then Except.error "model overloaded" else Except.ok 9

def opAlwaysBad : Nat → Except String Nat := fun _ => Except.error "bad request"

def opAlwaysBusy : Nat → Except String Nat :=
  fun i => Except.error (if i = 2 then "still UNAVAILABLE" else "overloaded")

/-- Witness for C1 at concrete operations. -/
theorem c1_retry_policy_witness :
    withRetry opOverloadedTwice = (Except.ok 9, 3) ∧
    withRetry opAlwaysBad = (Except.error "bad request", 1) ∧
    withRetry opAlwaysBusy = (Except.error "still UNAVAILABLE", 3) := by
  refine ⟨?_, ?_, ?_⟩
  · exact (c1_retry_policy opOverloadedTwice).1 "model overloaded" "model overloaded" 9
      rfl (by decide) rfl (by decide) rfl
  · exact (c1_retry_policy opAlwaysBad).2.1 "bad request" rfl (by decide)
  · exact (c1_retry_policy opAlwaysBusy).2.2 "overloaded" "overloaded" "still UNAVAILABLE"
      rfl (by decide) rfl (by decide) rfl (by decide)

/-- C2 (corrected): every reachable status is one of the five listed values
(COMPLETED is never entered); CONFIRMED is set only by the resolution of a
search that was put in flight by find-ride from IDLE; PAID is set only by the
firing of a payment completion whose payment was initiated while CONFIRMED —
but since payment timeouts are never cancelled, the status at the moment such
a completion fires need not still be CONFIRMED. -/
theorem c2_lifecycle :
    (∀ s, Reachable s → s.rideStatus ≠ RideStatus.COMPLETED) ∧
    (∀ e s s' out, step e s = some (s', out) →
      ((s'.rideStatus = RideStatus.CONFIRMED ∧ s.rideStatus ≠ RideStatus.CONFIRMED) →
        (∃ d l, e = Event.searchSuccess d l) ∧ 0 < s.searchesInFlight) ∧
      ((s'.rideStatus = RideStatus.PAID ∧ s.rideStatus ≠ RideStatus.PAID) →
        (e = Event.paymentTimerFire ∧ s.pendingPayments ≠ []) ∨
        (e = Event.gpayTimerFire ∧ s.gpayProcessing = true)) ∧
      (s.searchesInFlight < s'.searchesInFlight →
        e = Event.findRide ∧ s.rideStatus = RideStatus.IDLE ∧
        s'.rideStatus = RideStatus.SEARCHING) ∧
      (s.pendingPayments.length < s'.pendingPayments.length →
        (∃ m, e = Event.selectPayment m) ∧ s.rideStatus = RideStatus.CONFIRMED) ∧
      ((s'.gpayProcessing = true ∧ s.gpayProcessing = false) →
        e = Event.gpayConfirm ∧ s.isGPayModalOpen = true ∧ s.rideDetails.isSome = true) ∧
      ((s'.isGPayModalOpen = true ∧ s.isGPayModalOpen = false) →
        (∃ m, e = Event.selectPayment m ∧ m.pmType = PMType.GOOGLE_PAY) ∧
        s.rideStatus = RideStatus.CONFIRMED)) := by
  constructor
  · intro s hs
    induction hs with
    | init => decide
    | next hr hstep ih => exact (c2_step_all _ _ _ _ hstep).2.2.2.2.2.2 ih
  · intro e s s' out h
    have hall := c2_step_all e s s' out h
    exact ⟨hall.1, hall.2.1, hall.2.2.1, hall.2.2.2.1, hall.2.2.2.2.1, hall.2.2.2.2.2.1⟩

/-- C2 counterexample: pay by card while CONFIRMED, cancel the ride during
the 2000 ms payment delay (resetting to IDLE), and let the uncancelled
timeout fire: the orchestrator transitions IDLE → PAID, so PAID is not set
only by a payment completed while CONFIRMED. -/
theorem c2_counterexample :
    Reachable st9 ∧
    st9.rideStatus = RideStatus.IDLE ∧
    step Event.paymentTimerFire st9 = some (st10, []) ∧
    st10.rideStatus = RideStatus.PAID := by
  exact ⟨reach_st9, by decide, by decide, by decide⟩

/-- Witness for C2 at concrete reachable states and steps. -/
theorem c2_lifecycle_witness :
    initState.rideStatus ≠ RideStatus.COMPLETED ∧
    ((Event.paymentTimerFire = Event.paymentTimerFire ∧ st9.pendingPayments ≠ []) ∨
     (Event.paymentTimerFire = Event.gpayTimerFire ∧ st9.gpayProcessing = true)) ∧
    ((∃ d l, (Event.searchSuccess d0 "ride1" : Event) = Event.searchSuccess d l) ∧
      0 < st3.searchesInFlight) := by
  refine ⟨c2_lifecycle.1 initState Reachable.init, ?_, ?_⟩
  · exact (c2_lifecycle.2 Event.paymentTimerFire st9 st10 [] (by decide)).2.1
      ⟨by decide, by decide⟩
  · exact (c2_lifecycle.2 (Event.searchSuccess d0 "ride1") st3 st4
      [Out.adminLog "MG Road" "Bus Stand"] (by decide)).1 ⟨by decide, by decide⟩

/-- C3 (confirmed): when trigger B arrives less than 500 ms after trigger A
(and A is later than everything before it), A's pending computation is
cancelled entirely: among all debounce timeouts at or after A only B's fires,
so at most one outbound estimate call arises from A and B and any estimate
shown from them is derived from B's inputs only. -/
theorem c3_debounce (ts : List (Nat × EstInputs)) (tA tB : Nat) (A B : EstInputs)
    (hts : ∀ x ∈ ts, x.1 < tA) (hAB : tA < tB) (hwin : tB < tA + DEBOUNCE_MS) :
    (debounceFires (ts ++ [(tA, A), (tB, B)])).filter (fun x => decide (tA ≤ x.1)) =
      [(tB, B)] ∧
    (tA, A) ∉ debounceFires (ts ++ [(tA, A), (tB, B)]) ∧
    (outboundCalls (ts ++ [(tA, A), (tB, B)])).filter (fun x => decide (tA ≤ x.1)) =
      if wantsCall B then [(tB, B)] else [] := by
  have main : (debounceFires (ts ++ [(tA, A), (tB, B)])).filter
      (fun x => decide (tA ≤ x.1)) = [(tB, B)] := by
    induction ts with
    | nil =>
        simp only [List.nil_append, debounceFires, if_pos hwin, List.nil_append]
        simp only [debounceFires, List.filter]
        rw [show decide (tA ≤ tB) = true from by simp only [decide_eq_true_eq]; omega]
    | cons x ts ih =>
        have hx : x.1 < tA := hts x (by simp)
        have hts' : ∀ y ∈ ts, y.1 < tA := fun y hy => hts y (by simp [hy])
        cases ts with
        | nil =>
            simp only [List.cons_append, List.nil_append, debounceFires]
            rw [List.filter_append]
            have h1 : (if tA < x.1 + DEBOUNCE_MS then ([] : List (Nat × EstInputs))
                else [x]).filter (fun y => decide (tA ≤ y.1)) = [] := by
              split
              · simp
              · simp
                omega
            rw [h1, List.nil_append]
            simp only [debounceFires, if_pos hwin, List.nil_append]
            simp only [debounceFires, List.filter]
            rw [show decide (tA ≤ tB) = true from by simp only [decide_eq_true_eq]; omega]
        | cons y ys =>
            have ihy := ih hts'
            simp only [List.cons_append, debounceFires] at ihy ⊢
            rw [List.filter_append]
            have h1 : (if y.1 < x.1 + DEBOUNCE_MS then ([] : List (Nat × EstInputs))
                else [x]).filter (fun z => decide (tA ≤ z.1)) = [] := by
              split
              · simp
              · simp
                omega
            rw [h1, List.nil_append]
            exact ihy
  refine ⟨main, ?_, ?_⟩
  · intro hmem
    have hkept : (tA, A) ∈ (debounceFires (ts ++ [(tA, A), (tB, B)])).filter
        (fun x => decide (tA ≤ x.1)) := by
      rw [List.mem_filter]
      exact ⟨hmem, by simp⟩
    rw [main] at hkept
    simp at hkept
    omega
  · unfold outboundCalls
    rw [List.filter_comm, main]
    simp only [List.filter]
    split <;> simp_all

/-- Concrete fare-estimate inputs A (superseded) and B (kept). -/
def estA : EstInputs where
  pickup := "MG Road"
  destination := "Bus Stand"
  vehicle := VehicleType.CAR
  passengerCount := 1

def estB : EstInputs where
  pickup := "MG Road"
  destination := "Bus Depot"
  vehicle := VehicleType.CAR
  passengerCount := 1

/-- Witness for C3: trigger A at 1000 ms superseded by B at 1300 ms. -/
theorem c3_debounce_witness :
    (debounceFires [(1000, estA), (1300, estB)]).filter
      (fun x => decide (1000 ≤ x.1)) = [(1300, estB)] ∧
    (1000, estA) ∉ debounceFires [(1000, estA), (1300, estB)] := by
  have h := c3_debounce [] 1000 1300 estA estB (by simp) (by decide) (by decide)
  exact ⟨h.1, h.2.1⟩

/-- C4 (confirmed): while CONFIRMED, the ETA countdown is monotonically
non-increasing over ticks and never drops below 0; the "2 minutes away"
toast fires at most once per run of ticks, exactly when a tick lands on 2
(it decrements from 3), never again on later ticks and never when the value
skips over 2; each machine tick applies this updater and toasts iff the
pre-tick value is 3. -/
theorem c4_eta_countdown (e0 : Int) (h0 : 0 ≤ e0) (k j : Nat) (hjk : j ≤ k) :
    (∃ mk mj, (etaRun (some e0) k).1 = some mk ∧ (etaRun (some e0) j).1 = some mj ∧
      mk ≤ mj ∧ 0 ≤ mk) ∧
    (etaRun (some e0) k).2 ≤ 1 ∧
    ((etaRun (some e0) k).2 = 1 ↔ 3 ≤ e0 ∧ e0 ≤ (k : Int) + 2) ∧
    (∀ v, (etaTickStep v).2 = true ↔ v = some 3) ∧
    (∀ s s' o, step Event.etaTick s = some (s', o) →
      s'.dynamicEta = (etaTickStep s.dynamicEta).1 ∧
      (o ≠ [] ↔ s.dynamicEta = some 3)) := by
  have edge : ∀ v, (etaTickStep v).2 = true ↔ v = some 3 := by
    intro v
    match v with
    | none => simp [etaTickStep]
    | some p =>
        simp only [etaTickStep]
        by_cases hp : p > 0
        · rw [if_pos hp]
          simp
          omega
        · rw [if_neg hp]
          simp
          omega
  obtain ⟨vk, ck⟩ := etaRun_closed k e0 h0
  obtain ⟨vj, cj⟩ := etaRun_closed j e0 h0
  refine ⟨⟨max (e0 - k) 0, max (e0 - j) 0, vk, vj, ?_, ?_⟩, ?_, ?_, edge, ?_⟩
  · have hle : (j : Int) ≤ (k : Int) := by exact_mod_cast hjk
    omega
  · omega
  · rw [ck]; split <;> omega
  · rw [ck]; split <;> [simp_all; simp_all]
  · intro s s' o h
    simp only [step] at h
    split at h
    · simp only [Option.some.injEq, Prod.mk.injEq] at h
      obtain ⟨h1, h2⟩ := h
      subst h1
      subst h2
      refine ⟨rfl, ?_⟩
      rw [← edge s.dynamicEta]
      split <;> simp_all
    · exact absurd h (by simp)

/-- Witness for C4: an 8-minute countdown observed after 7 and after 3 ticks. -/
theorem c4_eta_countdown_witness :
    (etaRun (some 8) 7).2 ≤ 1 ∧
    ((etaRun (some 8) 7).2 = 1 ↔ 3 ≤ (8 : Int) ∧ (8 : Int) ≤ (7 : Int) + 2) ∧
    (∃ mk mj, (etaRun (some 8) 7).1 = some mk ∧ (etaRun (some 8) 3).1 = some mj ∧
      mk ≤ mj ∧ 0 ≤ mk) := by
  have h := c4_eta_countdown 8 (by decide) 7 3 (by decide)
  exact ⟨h.2.1, h.2.2.1, h.1⟩

/-- C5 (corrected): the transition to PAID clears only the payment
indicator, the dynamic ETA and the payment sub-surface, preserving the
RideOffer, TrackingLink, CancellationState and DriverPosition; the new-ride
reset clears the offer, estimate, ETA, link and cancellation state but
preserves DriverPosition, the payment indicator and pending payment timers. -/
theorem c5_bundle_frames (s : OrchState) :
    ((completeRideAction s).1.payingMethodId = none ∧
     (completeRideAction s).1.rideStatus = RideStatus.PAID ∧
     (completeRideAction s).1.dynamicEta = none ∧
     (completeRideAction s).1.isGPayModalOpen = false ∧
     (completeRideAction s).1.rideDetails = s.rideDetails ∧
     (completeRideAction s).1.rideTrackingLink = s.rideTrackingLink ∧
     (completeRideAction s).1.cancellationStep = s.cancellationStep ∧
     (completeRideAction s).1.cancellationReason = s.cancellationReason ∧
     (completeRideAction s).1.driverPosition = s.driverPosition) ∧
    ((handleNewRide s).rideStatus = RideStatus.IDLE ∧
     (handleNewRide s).rideDetails = none ∧
     (handleNewRide s).dynamicEta = none ∧
     (handleNewRide s).rideTrackingLink = none ∧
     (handleNewRide s).cancellationStep = CancellationStep.idle ∧
     (handleNewRide s).cancellationReason = "" ∧
     (handleNewRide s).fareEstimate = none ∧
     (handleNewRide s).driverPosition = s.driverPosition ∧
     (handleNewRide s).payingMethodId = s.payingMethodId ∧
     (handleNewRide s).pendingPayments = s.pendingPayments ∧
     (handleNewRide s).gpayProcessing = s.gpayProcessing) := by
  exact ⟨⟨rfl, rfl, rfl, rfl, rfl, rfl, rfl, rfl, rfl⟩,
         ⟨rfl, rfl, rfl, rfl, rfl, rfl, rfl, rfl, rfl, rfl, rfl⟩⟩

/-- C5 counterexample: a reachable PAID transition (card payment timeout
firing while CONFIRMED) leaves the RideOffer, the TrackingLink and the
cancellation state in place instead of destroying the whole bundle. -/
theorem c5_counterexample :
    Reachable st5 ∧
    st5.rideStatus = RideStatus.CONFIRMED ∧
    step Event.paymentTimerFire st5 =
      some (stPaid, [Out.rideComplete "MG Road" "Bus Stand" d0]) ∧
    stPaid.rideStatus = RideStatus.PAID ∧
    stPaid.rideDetails = some d0 ∧
    stPaid.rideTrackingLink = some "/track?rideId=ride1" := by
  exact ⟨reach_st5, by decide, by decide, by decide, by decide, by decide⟩

/-- C6 (confirmed): committing the cancellation at the reason step with no
reason selected leaves the state unchanged and only reminds the user;
committing with a reason from the fixed five-element list succeeds, emits a
cancelled toast and resets exactly as starting a new ride does. -/
theorem c6_cancellation_gate (s : OrchState)
    (hstep : s.cancellationStep = CancellationStep.reason) :
    (s.cancellationReason = "" →
      handleCancelRide s = (s, [Out.toast "Please select a reason."])) ∧
    (s.cancellationReason ∈ CANCELLATION_REASONS →
      handleCancelRide s = (handleNewRide s, [Out.toast "Your ride has been cancelled."]) ∧
      (handleNewRide s).rideStatus = RideStatus.IDLE ∧
      (handleNewRide s).cancellationStep = CancellationStep.idle ∧
      (handleNewRide s).rideDetails = none ∧
      (handleNewRide s).cancellationReason = "") ∧
    CANCELLATION_REASONS.length = 5 := by
  refine ⟨?_, ?_, rfl⟩
  · intro hr
    simp [handleCancelRide, hstep, hr]
  · intro hr
    have hne : ¬s.cancellationReason = "" := by
      simp only [CANCELLATION_REASONS, List.mem_cons, List.mem_singleton] at hr
      rcases hr with h | h | h | h | h | h <;> simp_all
    refine ⟨?_, rfl, rfl, rfl, rfl⟩
    simp [handleCancelRide, hne]

/-- Witness for C6 at the concrete trace states before and after selecting
the reason "Changed my mind". -/
theorem c6_cancellation_witness :
    (handleCancelRide st7 = (st7, [Out.toast "Please select a reason."])) ∧
    (handleCancelRide st8 =
      (handleNewRide st8, [Out.toast "Your ride has been cancelled."])) := by
  refine ⟨?_, ?_⟩
  · exact (c6_cancellation_gate st7 (by decide)).1 (by decide)
  · exact ((c6_cancellation_gate st8 (by decide)).2.1 (by decide)).1

/-- C7 (confirmed): on completion of any payment the orchestrator emits the
completed ride exactly once (given an offer is present), clears the payment
indicator and the dynamic ETA, closes the payment sub-surface and moves to
PAID; CASH schedules a 500 ms delay, CARD a 2000 ms delay, Google Pay opens
the confirmation surface whose completion requires a prior explicit confirm
(with a 2500 ms processing delay), and the Google-Pay cancel clears the
payment indicator without changing the ride status. -/
theorem c7_payment_completion :
    (∀ s d, s.rideDetails = some d →
      (completeRideAction s).2 = [Out.rideComplete s.pickup s.destination d] ∧
      (completeRideAction s).1.rideStatus = RideStatus.PAID ∧
      (completeRideAction s).1.payingMethodId = none ∧
      (completeRideAction s).1.dynamicEta = none ∧
      (completeRideAction s).1.isGPayModalOpen = false) ∧
    (∀ m s, m.pmType = PMType.CASH →
      (handlePayment m s).payingMethodId = some m.id ∧
      (handlePayment m s).pendingPayments = s.pendingPayments ++ [500] ∧
      (handlePayment m s).rideStatus = s.rideStatus) ∧
    (∀ m s, m.pmType = PMType.CARD →
      (handlePayment m s).payingMethodId = some m.id ∧
      (handlePayment m s).pendingPayments = s.pendingPayments ++ [2000] ∧
      (handlePayment m s).rideStatus = s.rideStatus) ∧
    (∀ m s, m.pmType = PMType.GOOGLE_PAY →
      (handlePayment m s).payingMethodId = some m.id ∧
      (handlePayment m s).isGPayModalOpen = true ∧
      (handlePayment m s).pendingPayments = s.pendingPayments) ∧
    GPAY_PROCESSING_DELAY_MS = 2500 ∧
    (∀ s s' out, step Event.gpayTimerFire s = some (s', out) →
      s.gpayProcessing = true ∧
      out = Out.toast "Payment successful!" ::
        (match s.rideDetails with
         | some d => [Out.rideComplete s.pickup s.destination d]
         | none => []) ∧
      s'.rideStatus = RideStatus.PAID) ∧
    (∀ s s' out, step Event.gpayConfirm s = some (s', out) →
      s.isGPayModalOpen = true ∧ s.gpayProcessing = false ∧ s'.gpayProcessing = true) ∧
    (∀ s, (handleGPayCancel s).isGPayModalOpen = false ∧
      (handleGPayCancel s).payingMethodId = none ∧
      (handleGPayCancel s).rideStatus = s.rideStatus ∧
      (handleGPayCancel s).rideDetails = s.rideDetails ∧
      (handleGPayCancel s).dynamicEta = s.dynamicEta) := by
  refine ⟨?_, ?_, ?_, ?_, rfl, ?_, ?_, ?_⟩
  · intro s d h
    simp [completeRideAction, h]
  · intro m s h
    simp [handlePayment, h]
  · intro m s h
    simp [handlePayment, h]
  · intro m s h
    simp [handlePayment, h]
  · intro s s' out h
    simp only [step] at h
    split at h
    · simp only [Option.some.injEq, Prod.mk.injEq] at h
      obtain ⟨h1, h2⟩ := h
      subst h1
      refine ⟨by assumption, ?_, rfl⟩
      rw [← h2]
      simp [completeRideAction]
    · exact absurd h (by simp)
  · intro s s' out h
    simp only [step] at h
    split at h
    · simp only [Option.some.injEq, Prod.mk.injEq] at h
      obtain ⟨h1, h2⟩ := h
      subst h1
      rename_i hc
      exact ⟨hc.1, hc.2.2, rfl⟩
    · exact absurd h (by simp)
  · intro s
    exact ⟨rfl, rfl, rfl, rfl, rfl⟩

/-- The cash payment method that `App` supplies. -/
def mCash : PaymentMethod where
  id := "CASH"
  pmType := PMType.CASH

/-- Witness for C7 at the concrete CONFIRMED state `st4`. -/
theorem c7_payment_completion_witness :
    (completeRideAction st4).2 = [Out.rideComplete "MG Road" "Bus Stand" d0] ∧
    (completeRideAction st4).1.rideStatus = RideStatus.PAID ∧
    (handlePayment mCash st4).pendingPayments = [500] ∧
    (handlePayment mCard st4).pendingPayments = [2000] ∧
    (handleGPayCancel st5).rideStatus = RideStatus.CONFIRMED := by
  have h1 := c7_payment_completion.1 st4 d0 (by decide)
  have h2 := (c7_payment_completion.2.1 mCash st4 rfl).2.1
  have h3 := (c7_payment_completion.2.2.1 mCard st4 rfl).2.1
  have h4 := (c7_payment_completion.2.2.2.2.2.2.2 st5).2.2.1
  exact ⟨h1.1, h1.2.1, h2, h3, h4⟩

/-- C8 (confirmed): after every vehicle change the passenger count is at
most the capacity of the newly selected vehicle (BIKE 1, AUTO 4, CAR 4);
a count above the new capacity is clamped down to it as a side effect, and
a count within capacity is left unchanged (never rejected). -/
theorem c8_passenger_clamp (v : VehicleType) (pc : Nat) :
    clampPassengers v pc ≤ maxPassengers v ∧
    (pc > maxPassengers v → clampPassengers v pc = maxPassengers v) ∧
    (pc ≤ maxPassengers v → clampPassengers v pc = pc) ∧
    maxPassengers VehicleType.BIKE = 1 ∧
    maxPassengers VehicleType.AUTO = 4 ∧
    maxPassengers VehicleType.CAR = 4 ∧
    (∀ s s' out, step (Event.setVehicle v) s = some (s', out) →
      s'.vehicle = v ∧ s'.passengerCount = clampPassengers v s.passengerCount ∧
      s'.passengerCount ≤ maxPassengers v) := by
  refine ⟨?_, ?_, ?_, rfl, rfl, rfl, ?_⟩
  · unfold clampPassengers; split <;> omega
  · intro h; unfold clampPassengers; split <;> omega
  · intro h; unfold clampPassengers; split <;> omega
  · intro s s' out h
    simp only [step] at h
    split at h
    · simp only [Option.some.injEq, Prod.mk.injEq] at h
      obtain ⟨h1, h2⟩ := h
      subst h1
      refine ⟨rfl, rfl, ?_⟩
      dsimp only
      unfold clampPassengers; split <;> omega
    · exact absurd h (by simp)

/-- Witness for C8: switching to BIKE with 4 passengers clamps to 1. -/
theorem c8_passenger_clamp_witness :
    clampPassengers VehicleType.BIKE 4 = maxPassengers VehicleType.BIKE ∧
    clampPassengers VehicleType.AUTO 3 = 3 ∧
    clampPassengers VehicleType.BIKE 4 ≤ maxPassengers VehicleType.BIKE := by
  refine ⟨?_, ?_, ?_⟩
  · exact (c8_passenger_clamp VehicleType.BIKE 4).2.1 (by decide)
  · exact (c8_passenger_clamp VehicleType.AUTO 3).2.2.1 (by decide)
  · exact (c8_passenger_clamp VehicleType.BIKE 4).1

/-- C9 (corrected): on a successful search the dynamic ETA is initialised to
the leading integer of the offer's ETA text when it parses and left
unchanged (unset) when it does not; but an unset ETA does not stay unset
across countdown ticks: the first tick sets it to 0 and it then stays 0, so
the static-text fallback is shown only until the first tick. -/
theorem c9_eta_initialisation :
    (∀ d linkId s s' out n, step (Event.searchSuccess d linkId) s = some (s', out) →
      (jsParseInt (String.mk (jsSplitHeadChars d.eta)) = some n → s'.dynamicEta = some n) ∧
      (jsParseInt (String.mk (jsSplitHeadChars d.eta)) = none → s'.dynamicEta = s.dynamicEta)) ∧
    (etaTickStep none).1 = some 0 ∧
    (∀ k, etaRun (some 0) k = (some 0, 0)) ∧
    (∀ t, displayedEta none t = t) ∧
    (∀ t, displayedEta (some 0) t = "0 min") := by
  refine ⟨?_, rfl, ?_, fun t => rfl, fun t => rfl⟩
  · intro d linkId s s' out n h
    simp only [step] at h
    split at h
    · simp only [applySearchSuccess, Option.some.injEq, Prod.mk.injEq] at h
      obtain ⟨h1, h2⟩ := h
      subst h1
      constructor
      · intro hp; dsimp only; rw [hp]
      · intro hp; dsimp only; rw [hp]
    · exact absurd h (by simp)
  · intro k
    induction k with
    | zero => rfl
    | succ k ih => simp [etaRun, etaTickStep, ih]

/-- C9 counterexample: a reachable CONFIRMED ride whose ETA text is `soon`
(no leading integer) starts with DynamicEta unset, but the first countdown
tick sets it to 0 instead of leaving it null. -/
theorem c9_counterexample :
    Reachable su4 ∧
    su4.rideStatus = RideStatus.CONFIRMED ∧
    su4.rideDetails = some d9 ∧
    jsParseInt (String.mk (jsSplitHeadChars d9.eta)) = none ∧
    su4.dynamicEta = none ∧
    step Event.etaTick su4 = some (su5, []) ∧
    su5.rideStatus = RideStatus.CONFIRMED ∧
    su5.dynamicEta = some 0 := by
  exact ⟨reach_su4, by decide, by decide, by decide, by decide, by decide, by decide, by decide⟩

/-- Witness for C9 at the two concrete search resolutions of the traces. -/
theorem c9_eta_initialisation_witness :
    st4.dynamicEta = some 8 ∧ su4.dynamicEta = su3.dynamicEta := by
  constructor
  · exact (c9_eta_initialisation.1 d0 "ride1" st3 st4
      [Out.adminLog "MG Road" "Bus Stand"] 8 (by decide)).1 (by decide)
  · exact (c9_eta_initialisation.1 d9 "ride2" su3 su4
      [Out.adminLog "Fort" "Statue"] 0 (by decide)).2 (by decide)

/-- C10 (confirmed): when the completion action runs with no offer present,
no completed-ride record is emitted, yet the status still becomes PAID and
the payment indicator, dynamic ETA and payment sub-surface are still
cleared; the emission alone is conditional on an offer existing. -/
theorem c10_completion_without_offer (s : OrchState) (h : s.rideDetails = none) :
    (completeRideAction s).2 = [] ∧
    (completeRideAction s).1.rideStatus = RideStatus.PAID ∧
    (completeRideAction s).1.payingMethodId = none ∧
    (completeRideAction s).1.dynamicEta = none ∧
    (completeRideAction s).1.isGPayModalOpen = false ∧
    (∀ d, s.rideDetails = some d →
      (completeRideAction s).2 = [Out.rideComplete s.pickup s.destination d]) := by
  simp [completeRideAction, h]

/-- Witness for C10 at the concrete post-cancellation state `st9`. -/
theorem c10_completion_without_offer_witness :
    (completeRideAction st9).2 = [] ∧
    (completeRideAction st9).1.rideStatus = RideStatus.PAID := by
  have h := c10_completion_without_offer st9 (by decide)
  exact ⟨h.1, h.2.1⟩

end Chaloride
